import Mathlib

/-
Verification development for the ezproxy repository (src/main.rs).

The program is a small HTTP reverse proxy built on hyper:
  - authorize: checks the first "Authorization" header value against the
    configured token using HeaderValue::to_str().ok() == Some(&token);
  - forward: rebuilds the request URI from the configured upstream base,
    keeping the inbound path-and-query (default "/"), overwrites the
    "host" header with the upstream authority, and dispatches via a
    hyper Client;
  - handle: runs authorize, then forward; a transport error becomes a
    502 "Bad Gateway" response, a rejection returns the 401 response.

Bytes are modelled as Nat (each < 256 where relevant); header values are
byte lists, Rust String values are Lean String values, and the UTF-8
encoding of a String is made explicit so that byte-for-byte comparisons
can be stated.  Panics (unwrap / expect failures) are modelled as an
explicit HandleResult.panic outcome.  The hyper client network call is an
oracle parameter (dispatch), and the list of dispatched outbound requests
is returned alongside the result so that dispatch-count properties can be
stated.
-/

/-- Visible-ASCII test used by http::HeaderValue::to_str: a byte is kept
iff it is in 32..126 or is the horizontal tab 9. -/
def isVisibleAscii (b : Nat) : Bool :=
  (32 ≤ b && b < 127) || b == 9

/-- Model of http::HeaderValue::to_str: succeeds iff every byte is visible
ASCII, returning the string whose characters are exactly those bytes. -/
def headerValueToStr (value : List Nat) : Option String :=
  if value.all isVisibleAscii then some (String.mk (value.map Char.ofNat))
  else none

/-- UTF-8 encoding of a single unicode scalar value, written with division
and remainder (for a scalar below 0x80 the encoding is the single byte
itself). This is the standard UTF-8 byte layout used by Rust strings. -/
def utf8EncodeCharNat (n : Nat) : List Nat :=
  if n < 0x80 then [n]
  else if n < 0x800 then [0xC0 + n / 64, 0x80 + n % 64]
  else if n < 0x10000 then [0xE0 + n / 4096, 0x80 + n / 64 % 64, 0x80 + n % 64]
  else [0xF0 + n / 262144, 0x80 + n / 4096 % 64, 0x80 + n / 64 % 64, 0x80 + n % 64]

/-- The UTF-8 bytes of a string, i.e. the byte content of a Rust String. -/
def utf8Bytes (s : String) : List Nat :=
  s.data.flatMap fun c => utf8EncodeCharNat c.toNat

theorem utf8EncodeCharNat_of_lt_128 (n : Nat) (h : n < 128) :
    utf8EncodeCharNat n = [n] := by
  simp [utf8EncodeCharNat, h]

theorem lt_127_of_isVisibleAscii (b : Nat) (h : isVisibleAscii b = true) :
    b < 127 := by
  simp [isVisibleAscii] at h
  omega

theorem toNat_ofNat_of_visible (b : Nat) (h : isVisibleAscii b = true) :
    (Char.ofNat b).toNat = b := by
  have hb : b < 127 := lt_127_of_isVisibleAscii b h
  have hv : b.isValidChar := Or.inl (by omega)
  simp [Char.ofNat, hv, Char.toNat, Char.ofNatAux, UInt32.toNat, BitVec.toNat_ofNatLt]

/-- Decoding visible-ASCII bytes to characters and re-encoding in UTF-8
gives back the original bytes. -/
theorem utf8Bytes_mk_map_ofNat (v : List Nat) (h : v.all isVisibleAscii = true) :
    utf8Bytes (String.mk (v.map Char.ofNat)) = v := by
  induction v with
  | nil => rfl
  | cons b bs ih =>
    rw [List.all_cons, Bool.and_eq_true] at h
    obtain ⟨hb, hbs⟩ := h
    have h1 : (Char.ofNat b).toNat = b := toNat_ofNat_of_visible b hb
    have h2 : b < 128 := by have := lt_127_of_isVisibleAscii b hb; omega
    simpa [utf8Bytes, h1, utf8EncodeCharNat_of_lt_128 b h2] using ih hbs

theorem lt_128_of_encode_visible (n : Nat)
    (h : (utf8EncodeCharNat n).all isVisibleAscii = true) : n < 128 := by
  unfold utf8EncodeCharNat at h
  split at h
  · assumption
  · split at h
    · simp [isVisibleAscii] at h
      omega
    · split at h
      · simp [isVisibleAscii] at h
        omega
      · simp [isVisibleAscii] at h
        omega

/-- If the UTF-8 encoding of a character list is all visible ASCII, mapping
Char.ofNat over those bytes recovers the original characters. -/
theorem map_ofNat_bind_encode (l : List Char)
    (h : (l.flatMap fun c => utf8EncodeCharNat c.toNat).all isVisibleAscii = true) :
    (l.flatMap fun c => utf8EncodeCharNat c.toNat).map Char.ofNat = l := by
  induction l with
  | nil => rfl
  | cons c cs ih =>
    rw [List.flatMap_cons, List.all_append, Bool.and_eq_true] at h
    obtain ⟨hc, hcs⟩ := h
    have h1 : c.toNat < 128 := lt_128_of_encode_visible c.toNat hc
    rw [List.flatMap_cons, List.map_append, utf8EncodeCharNat_of_lt_128 c.toNat h1, ih hcs]
    simp [Char.ofNat_toNat]

/-- Characterization of the comparison performed by authorize: the
to_str conversion of a header value equals a given token iff the value is
byte-for-byte the UTF-8 encoding of the token and that encoding is all
visible ASCII. -/
theorem headerValueToStr_eq_some_iff (v : List Nat) (tok : String) :
    headerValueToStr v = some tok ↔
      v = utf8Bytes tok ∧ (utf8Bytes tok).all isVisibleAscii = true := by
  constructor
  · intro h
    unfold headerValueToStr at h
    split at h
    case isTrue hall =>
      have hmk : String.mk (v.map Char.ofNat) = tok := Option.some.inj h
      have hv : utf8Bytes tok = v := by
        rw [← hmk]
        exact utf8Bytes_mk_map_ofNat v hall
      exact ⟨hv.symm, by rw [hv]; exact hall⟩
    case isFalse => cases h
  · rintro ⟨hv, hall⟩
    subst hv
    unfold headerValueToStr
    rw [if_pos hall]
    have hall2 : ((tok.data.flatMap fun c => utf8EncodeCharNat c.toNat).all isVisibleAscii) = true := by
      simpa [utf8Bytes] using hall
    have hmap := map_ofNat_bind_encode tok.data hall2
    simp only [utf8Bytes]
    rw [hmap]

/-
HTTP data model.

Header maps (http::HeaderMap) are modelled as ordered lists of
(lowercased name, value-bytes) pairs; hyper lowercases header names on
receipt, and the constants AUTHORIZATION and "host" used by the source
are lowercase.  HeaderMap::get returns the first value for a name;
HeaderMap::insert replaces every value previously associated with the
name by the single new one.  headersGetAll is the observation function
(the ordered value list of one name, as in HeaderMap::get_all).
-/

/-- First value associated with a name, as http::HeaderMap::get. -/
def headersGet (hs : List (String × List Nat)) (name : String) : Option (List Nat) :=
  (hs.find? fun p => p.1 == name).map fun p => p.2

/-- All values associated with a name in order, as http::HeaderMap::get_all. -/
def headersGetAll (hs : List (String × List Nat)) (name : String) : List (List Nat) :=
  (hs.filter fun p => p.1 == name).map fun p => p.2

/-- Model of http::HeaderMap::insert: every value previously associated
with the name is removed and the single new value is associated with it.
(The position of the surviving entry inside the map is not observable
through headersGet / headersGetAll for other names, which is all the
program and the spec observe.) -/
def headerInsert (hs : List (String × List Nat)) (name : String) (v : List Nat) :
    List (String × List Nat) :=
  (hs.filter fun p => p.1 != name) ++ [(name, v)]

/-- Inbound hyper Request: method, the path-and-query part of its URI (as
its exact string, None for URIs without a path component such as
authority-form CONNECT targets), headers and body bytes. -/
structure Request where
  method : String
  pathAndQuery : Option String
  headers : List (String × List Nat)
  body : List Nat
deriving DecidableEq

/-- A hyper Response: status code, headers and body bytes. -/
structure Response where
  status : Nat
  headers : List (String × List Nat)
  body : List Nat
deriving DecidableEq

/-- http::uri::Parts: optional scheme, authority and path-and-query
components, each kept as its exact string. -/
structure UriParts where
  scheme : Option String
  authority : Option String
  pathAndQuery : Option String
deriving DecidableEq

/-- The request handed to the hyper client: method, full URI, headers and
body. -/
structure OutboundRequest where
  method : String
  uri : UriParts
  headers : List (String × List Nat)
  body : List Nat
deriving DecidableEq

/-- The 401 response built in authorize for a missing header:
Response::builder().status(401).body("Missing Authorization header"). -/
def missingAuthResponse : Response :=
  { status := 401, headers := [], body := utf8Bytes "Missing Authorization header" }

/-- The 401 response built in authorize for a mismatched value:
Response::builder().status(401).body("Invalid auth token"). -/
def invalidTokenResponse : Response :=
  { status := 401, headers := [], body := utf8Bytes "Invalid auth token" }

/-- The 502 response built in handle on a transport error:
Response::builder().status(502).body("Bad Gateway"). -/
def badGatewayResponse : Response :=
  { status := 502, headers := [], body := utf8Bytes "Bad Gateway" }

/-
Embedding of the program (src/main.rs).
-/

/-- Embedding of the authorize function: look up the first "authorization"
header value; if its to_str conversion equals the token return the request
unchanged (Ok), otherwise a 401 "Invalid auth token" (Err); with no header
a 401 "Missing Authorization header" (Err).  Except.error plays the role
of the Rust Err(Response). -/
def authorize (req : Request) (authToken : String) : Except Response Request :=
  match headersGet req.headers "authorization" with
  | some value =>
    if headerValueToStr value = some authToken then Except.ok req
    else Except.error invalidTokenResponse
  | none => Except.error missingAuthResponse

/-- Error cases of http::Uri::from_parts. -/
inductive UriPartsError where
  | authorityMissing
  | pathAndQueryMissing
  | schemeMissing
deriving DecidableEq

/-- Embedding of http::Uri::from_parts: with a scheme present, an
authority and a path-and-query are required; without a scheme, an
authority together with a path-and-query is rejected.  On success the Uri
is represented by its parts. -/
def uriFromParts (p : UriParts) : Except UriPartsError UriParts :=
  match p.scheme with
  | some _ =>
    match p.authority with
    | none => Except.error UriPartsError.authorityMissing
    | some _ =>
      match p.pathAndQuery with
      | none => Except.error UriPartsError.pathAndQueryMissing
      | some _ => Except.ok p
  | none =>
    if p.authority.isSome && p.pathAndQuery.isSome then
      Except.error UriPartsError.schemeMissing
    else Except.ok p

/-- Result of one hyper client call (the dispatch oracle): the upstream
response, or a transport error carrying the error text of hyper::Error. -/
inductive DispatchResult where
  | ok (resp : Response)
  | transportError (msg : String)

/-- Result of the forward function: the upstream response, a transport
error (the Rust Err(hyper::Error) return), or a panic from a failed
unwrap / expect inside forward. -/
inductive ForwardResult where
  | ok (resp : Response)
  | transportError (msg : String)
  | panic (msg : String)

/-- Embedding of the forward function.  The second component is the list
of requests handed to the hyper client, so that dispatch counts can be
stated.  Steps, following the source: take the inbound path-and-query
string (default "/"), overwrite the path-and-query of the upstream base
parts with it, rebuild the URI via Uri::from_parts (whose failure the
source turns into a panic via expect("valid upstream URI")), overwrite
the "host" header with the authority when one is present (the authority
string of a parsed URI is visible ASCII, so its HeaderValue parse in the
source cannot fail and is modelled as its UTF-8 bytes), and dispatch. -/
def forward (dispatch : OutboundRequest → DispatchResult) (req : Request)
    (upstreamBase : UriParts) : ForwardResult × List OutboundRequest :=
  let pathAndQuery := req.pathAndQuery.getD "/"
  let parts : UriParts := { upstreamBase with pathAndQuery := some pathAndQuery }
  match uriFromParts parts with
  | Except.error _ => (ForwardResult.panic "valid upstream URI", [])
  | Except.ok uri =>
    let headers :=
      match parts.authority with
      | some authority => headerInsert req.headers "host" (utf8Bytes authority)
      | none => req.headers
    let newReq : OutboundRequest :=
      { method := req.method, uri := uri, headers := headers, body := req.body }
    match dispatch newReq with
    | DispatchResult.ok resp => (ForwardResult.ok resp, [newReq])
    | DispatchResult.transportError e => (ForwardResult.transportError e, [newReq])

/-- Outcome of the handle function: a response sent to the client, or a
panic of the request task (no response). -/
inductive HandleResult where
  | response (resp : Response)
  | panic (msg : String)
deriving DecidableEq

/-- Embedding of the handle function: run authorize; on Ok run forward,
turning a transport error into the fixed 502 response; on Err return the
401 response from authorize.  The second component again records the
requests handed to the hyper client. -/
def handle (dispatch : OutboundRequest → DispatchResult) (req : Request)
    (authToken : String) (upstreamBase : UriParts) :
    HandleResult × List OutboundRequest :=
  match authorize req authToken with
  | Except.ok authenticatedReq =>
    match forward dispatch authenticatedReq upstreamBase with
    | (ForwardResult.ok resp, sent) => (HandleResult.response resp, sent)
    | (ForwardResult.transportError _, sent) => (HandleResult.response badGatewayResponse, sent)
    | (ForwardResult.panic msg, sent) => (HandleResult.panic msg, sent)
  | Except.error authResp => (HandleResult.response authResp, [])

/-
Helper lemmas about the embedded program.
-/

theorem authorize_first_value (req : Request) (tok : String) (v : List Nat)
    (h : headersGet req.headers "authorization" = some v) :
    authorize req tok =
      if headerValueToStr v = some tok then Except.ok req
      else Except.error invalidTokenResponse := by
  simp [authorize, h]

theorem authorize_none (req : Request) (tok : String)
    (h : headersGet req.headers "authorization" = none) :
    authorize req tok = Except.error missingAuthResponse := by
  simp [authorize, h]

theorem authorize_cases (req : Request) (tok : String) :
    authorize req tok = Except.ok req ∨
    authorize req tok = Except.error missingAuthResponse ∨
    authorize req tok = Except.error invalidTokenResponse := by
  cases h : headersGet req.headers "authorization" with
  | none => exact Or.inr (Or.inl (authorize_none req tok h))
  | some v =>
    rw [authorize_first_value req tok v h]
    by_cases hv : headerValueToStr v = some tok
    · exact Or.inl (by rw [if_pos hv])
    · exact Or.inr (Or.inr (by rw [if_neg hv]))

theorem headersGet_append_right (hs : List (String × List Nat))
    (name : String) (v : List Nat) (extra : List (String × List Nat))
    (h : headersGet hs name = some v) :
    headersGet (hs ++ extra) name = some v := by
  induction hs with
  | nil => cases h
  | cons p ps ih =>
    by_cases hp : p.1 = name
    · simpa [headersGet, hp] using (by simpa [headersGet, hp] using h)
    · rw [headersGet, List.cons_append, List.find?_cons_of_neg]
      · exact ih (by simpa [headersGet, List.find?_cons_of_neg, hp] using h)
      · simp [hp]

theorem headersGetAll_headerInsert_self (hs : List (String × List Nat))
    (name : String) (v : List Nat) :
    headersGetAll (headerInsert hs name v) name = [v] := by
  induction hs with
  | nil => simp [headersGetAll, headerInsert]
  | cons p ps ih =>
    by_cases hp : p.1 = name
    · simp [headersGetAll, headerInsert, hp]
    · simp [headersGetAll, headerInsert, hp]

theorem headersGetAll_headerInsert_ne (hs : List (String × List Nat))
    (name other : String) (v : List Nat) (hne : other ≠ name) :
    headersGetAll (headerInsert hs name v) other = headersGetAll hs other := by
  have hne2 : name ≠ other := fun he => hne he.symm
  have h2 : List.filter (fun p => p.1 == other) (List.filter (fun p => p.1 != name) hs)
      = List.filter (fun p => p.1 == other) hs := by
    induction hs with
    | nil => rfl
    | cons p ps ih =>
      by_cases hp : p.1 = name
      · have hd : (p.1 != name) = false := by simp [hp]
        have hpo : (p.1 == other) = false := by simp [hp, hne2]
        simp [List.filter_cons, hd, hpo, ih]
      · have hd : (p.1 != name) = true := by simp [hp]
        simp [List.filter_cons, hd, ih]
  unfold headersGetAll headerInsert
  rw [List.filter_append, h2]
  simp [hne2]

/-- The outbound request forward builds when the upstream base has scheme
and authority: method and body of the inbound request, the upstream
scheme and authority with the inbound path-and-query (default "/"), and
the inbound headers with "host" overwritten by the authority. -/
def builtOutbound (req : Request) (s a : String) : OutboundRequest :=
  { method := req.method,
    uri := { scheme := some s, authority := some a,
             pathAndQuery := some (req.pathAndQuery.getD "/") },
    headers := headerInsert req.headers "host" (utf8Bytes a),
    body := req.body }

theorem forward_run (dispatch : OutboundRequest → DispatchResult) (req : Request)
    (base : UriParts) (s a : String)
    (hs : base.scheme = some s) (ha : base.authority = some a) :
    forward dispatch req base =
      match dispatch (builtOutbound req s a) with
      | DispatchResult.ok resp => (ForwardResult.ok resp, [builtOutbound req s a])
      | DispatchResult.transportError e =>
          (ForwardResult.transportError e, [builtOutbound req s a]) := by
  cases hd : dispatch (builtOutbound req s a) with
  | ok resp =>
    simp [forward, uriFromParts, hs, ha, builtOutbound] at hd ⊢
    simp [hd]
  | transportError e =>
    simp [forward, uriFromParts, hs, ha, builtOutbound] at hd ⊢
    simp [hd]

theorem handle_rejected (dispatch : OutboundRequest → DispatchResult) (req : Request)
    (tok : String) (base : UriParts) (r : Response)
    (h : authorize req tok = Except.error r) :
    handle dispatch req tok base = (HandleResult.response r, []) := by
  simp [handle, h]

theorem handle_authorized (dispatch : OutboundRequest → DispatchResult) (req : Request)
    (tok : String) (base : UriParts) (s a : String)
    (hok : authorize req tok = Except.ok req)
    (hs : base.scheme = some s) (ha : base.authority = some a) :
    handle dispatch req tok base =
      match dispatch (builtOutbound req s a) with
      | DispatchResult.ok resp => (HandleResult.response resp, [builtOutbound req s a])
      | DispatchResult.transportError _ =>
          (HandleResult.response badGatewayResponse, [builtOutbound req s a]) := by
  cases hd : dispatch (builtOutbound req s a) with
  | ok resp =>
    simp [handle, hok, forward_run dispatch req base s a hs ha, hd]
  | transportError e =>
    simp [handle, hok, forward_run dispatch req base s a hs ha, hd]

/-
Concrete inputs used by counterexamples and witnesses.
-/

/-- A one-character token whose UTF-8 encoding [195, 169] is not visible
ASCII (the character e-acute, scalar value 233).  AUTH_TOKEN is an
arbitrary Rust String, so such a token is expressible, and both its bytes
are legal http header-value bytes. -/
def tokenNonAscii : String := String.mk [Char.ofNat 233]

/-- A request whose Authorization value is byte-for-byte the UTF-8
encoding of tokenNonAscii. -/
def reqNonAsciiAuth : Request :=
  { method := "GET", pathAndQuery := some "/",
    headers := [("authorization", utf8Bytes tokenNonAscii)], body := [] }

/-- A request carrying Authorization: secret, an inbound host header and a
two-byte body. -/
def reqGoodAuth : Request :=
  { method := "GET", pathAndQuery := some "/status?x=1",
    headers := [("authorization", utf8Bytes "secret"), ("host", utf8Bytes "example.com")],
    body := [104, 105] }

/-- A request with no Authorization header. -/
def reqNoAuth : Request :=
  { method := "GET", pathAndQuery := some "/status?x=1",
    headers := [("accept", utf8Bytes "text/plain")], body := [] }

/-- A request whose Authorization value does not match the token secret. -/
def reqBadAuth : Request :=
  { method := "GET", pathAndQuery := some "/",
    headers := [("authorization", utf8Bytes "wrong")], body := [] }

/-- An authorized request whose URI has no path component. -/
def reqNoPathAuth : Request :=
  { method := "GET", pathAndQuery := none,
    headers := [("authorization", utf8Bytes "secret")], body := [] }

/-- A request carrying two Authorization values: the first matches the
token secret, the second does not. -/
def reqTwoAuth : Request :=
  { method := "GET", pathAndQuery := some "/",
    headers := [("authorization", utf8Bytes "secret"), ("authorization", utf8Bytes "wrong")],
    body := [] }

/-- The parts of the startup-parsed upstream URI http://localhost:9001. -/
def goodBase : UriParts :=
  { scheme := some "http", authority := some "localhost:9001", pathAndQuery := some "" }

/-- The parts of the startup-parsed upstream string "localhost:9001":
http::Uri accepts it as an authority-only URI (no scheme, no path). -/
def schemelessBase : UriParts :=
  { scheme := none, authority := some "localhost:9001", pathAndQuery := none }

/-- A fixed upstream response used by witnesses. -/
def upstreamResp : Response :=
  { status := 200, headers := [("content-type", utf8Bytes "text/plain")],
    body := utf8Bytes "ok" }

/-
Claim theorems.
-/

/-- Claim C1, counterexample: with the configured token tokenNonAscii
(UTF-8 bytes [195, 169]) and a request whose Authorization value is
byte-for-byte equal to those bytes, the claim says the validator returns
Authorized, but authorize returns Rejected with the 401 "Invalid auth
token" response, because HeaderValue::to_str fails on the non-ASCII bytes
and the comparison to_str().ok() == Some(&token) is then false. -/
theorem c1_counterexample :
    headersGet reqNonAsciiAuth.headers "authorization" = some (utf8Bytes tokenNonAscii) ∧
    authorize reqNonAsciiAuth tokenNonAscii = Except.error invalidTokenResponse := by
  exact ⟨rfl, rfl⟩

/-- Claim C1, amended: for every request that carries an Authorization
header, the validator returns Authorized with the original request
unchanged iff the header value is byte-for-byte the UTF-8 encoding of the
configured token and that encoding consists only of visible ASCII bytes
(32..126 or tab); otherwise it returns Rejected with status 401 and body
"Invalid auth token".  The visible-ASCII qualification is what the
counterexample forces: a value byte-for-byte equal to a non-ASCII token
is rejected because HeaderValue::to_str fails on it. -/
theorem c1_theorem (req : Request) (tok : String) (v : List Nat)
    (h : headersGet req.headers "authorization" = some v) :
    authorize req tok =
      if v = utf8Bytes tok ∧ (utf8Bytes tok).all isVisibleAscii = true then Except.ok req
      else Except.error invalidTokenResponse := by
  rw [authorize_first_value req tok v h]
  by_cases hv : headerValueToStr v = some tok
  · rw [if_pos hv, if_pos ((headerValueToStr_eq_some_iff v tok).mp hv)]
  · rw [if_neg hv, if_neg fun hc => hv ((headerValueToStr_eq_some_iff v tok).mpr hc)]

/-- Witness for c1_theorem at the token secret and a matching value. -/
theorem c1_witness :
    headersGet reqGoodAuth.headers "authorization" = some (utf8Bytes "secret") ∧
    authorize reqGoodAuth "secret" =
      (if utf8Bytes "secret" = utf8Bytes "secret" ∧
          (utf8Bytes "secret").all isVisibleAscii = true
       then Except.ok reqGoodAuth else Except.error invalidTokenResponse) :=
  ⟨rfl, c1_theorem reqGoodAuth "secret" (utf8Bytes "secret") rfl⟩

/-- Claim C2, evaluation at the failing configuration: the upstream
string "localhost:9001" is accepted by the startup Uri parse (it is an
authority-only URI, with no scheme), yet handling an authorized request
under it ends in the per-request panic of expect("valid upstream URI")
inside forward, because Uri::from_parts rejects an authority with a
path-and-query but no scheme.  The client gets no response, and the
failure is surfaced per-request rather than at startup. -/
theorem c2_theorem :
    handle (fun _ => DispatchResult.ok upstreamResp) reqGoodAuth "secret" schemelessBase
      = (HandleResult.panic "valid upstream URI", []) := by
  rfl

/-- Claim C4: a request with no Authorization header is rejected by the
validator, and the client receives the fixed response with status 401 and
body "Missing Authorization header". -/
theorem c4_theorem (dispatch : OutboundRequest → DispatchResult) (req : Request)
    (tok : String) (base : UriParts)
    (h : headersGet req.headers "authorization" = none) :
    authorize req tok = Except.error missingAuthResponse ∧
    (handle dispatch req tok base).1 = HandleResult.response missingAuthResponse ∧
    missingAuthResponse.status = 401 ∧
    missingAuthResponse.body = utf8Bytes "Missing Authorization header" := by
  have ha := authorize_none req tok h
  exact ⟨ha, by rw [handle_rejected dispatch req tok base _ ha], rfl, rfl⟩

/-- Witness for c4_theorem at a concrete header-less request. -/
theorem c4_witness :
    authorize reqNoAuth "secret" = Except.error missingAuthResponse ∧
    (handle (fun _ => DispatchResult.ok upstreamResp) reqNoAuth "secret" goodBase).1
      = HandleResult.response missingAuthResponse ∧
    missingAuthResponse.status = 401 ∧
    missingAuthResponse.body = utf8Bytes "Missing Authorization header" :=
  c4_theorem (fun _ => DispatchResult.ok upstreamResp) reqNoAuth "secret" goodBase rfl

/-- Claim C9: only the first Authorization value is compared: given that
the first Authorization value of the header map is v, the validator
authorizes the request iff the comparison of v with the token succeeds
(its to_str conversion equals the token), with the original request
returned unchanged, and otherwise rejects with the fixed 401; moreover
appending any further Authorization value to the request leaves the
outcome unchanged, so subsequent values have no effect. -/
theorem c9_theorem (req : Request) (tok : String) (v : List Nat)
    (h : headersGet req.headers "authorization" = some v) :
    (authorize req tok =
      if headerValueToStr v = some tok then Except.ok req
      else Except.error invalidTokenResponse) ∧
    (∀ extra : List Nat,
      authorize { req with headers := req.headers ++ [("authorization", extra)] } tok =
        if headerValueToStr v = some tok
        then Except.ok { req with headers := req.headers ++ [("authorization", extra)] }
        else Except.error invalidTokenResponse) := by
  refine ⟨authorize_first_value req tok v h, fun extra => ?_⟩
  exact authorize_first_value _ tok v
    (headersGet_append_right req.headers "authorization" v [("authorization", extra)] h)

/-- Witness for c9_theorem at a request with two Authorization values
whose first matches the token. -/
theorem c9_witness :
    (authorize reqTwoAuth "secret" =
      if headerValueToStr (utf8Bytes "secret") = some "secret" then Except.ok reqTwoAuth
      else Except.error invalidTokenResponse) ∧
    (∀ extra : List Nat,
      authorize { reqTwoAuth with
          headers := reqTwoAuth.headers ++ [("authorization", extra)] } "secret" =
        if headerValueToStr (utf8Bytes "secret") = some "secret"
        then Except.ok { reqTwoAuth with
          headers := reqTwoAuth.headers ++ [("authorization", extra)] }
        else Except.error invalidTokenResponse) :=
  c9_theorem reqTwoAuth "secret" (utf8Bytes "secret") rfl

/-- Claim C10: the synthesized responses are fixed constants.  The three
rejection and failure branches produce exactly the closed constants
missingAuthResponse, invalidTokenResponse and badGatewayResponse, for
every configuration (token, upstream parts) and every request taking the
branch; hence any two runs on the same branch yield identical responses,
and the synthesized response does not depend on the configured token, the
submitted Authorization value, or the transport error text. -/
theorem c10_theorem :
    (∀ (tok : String) (req : Request),
        headersGet req.headers "authorization" = none →
        authorize req tok = Except.error missingAuthResponse) ∧
    (∀ (tok : String) (req : Request) (v : List Nat),
        headersGet req.headers "authorization" = some v →
        headerValueToStr v ≠ some tok →
        authorize req tok = Except.error invalidTokenResponse) ∧
    (∀ (errText : OutboundRequest → String) (req : Request) (tok : String)
        (base : UriParts) (s a : String),
        authorize req tok = Except.ok req →
        base.scheme = some s → base.authority = some a →
        (handle (fun out => DispatchResult.transportError (errText out)) req tok base).1
          = HandleResult.response badGatewayResponse) := by
  refine ⟨fun tok req h => authorize_none req tok h,
          fun tok req v h hne => ?_,
          fun errText req tok base s a hok hs ha => ?_⟩
  · rw [authorize_first_value req tok v h, if_neg hne]
  · have hrun := handle_authorized (fun out => DispatchResult.transportError (errText out))
      req tok base s a hok hs ha
    rw [hrun]

/-- Witness for c10_theorem: the three branches at two different tokens
and requests each, producing the same constants. -/
theorem c10_witness :
    authorize reqNoAuth "tokenA" = Except.error missingAuthResponse ∧
    authorize reqNoAuth "tokenB" = Except.error missingAuthResponse ∧
    authorize reqBadAuth "secret" = Except.error invalidTokenResponse ∧
    (handle (fun _ => DispatchResult.transportError "connection refused")
        reqGoodAuth "secret" goodBase).1 = HandleResult.response badGatewayResponse :=
  ⟨c10_theorem.1 "tokenA" reqNoAuth rfl,
   c10_theorem.1 "tokenB" reqNoAuth rfl,
   c10_theorem.2.1 "secret" reqBadAuth (utf8Bytes "wrong") rfl (by decide),
   c10_theorem.2.2 (fun _ => "connection refused") reqGoodAuth "secret" goodBase
     "http" "localhost:9001" rfl rfl rfl⟩

/-- Claim C3: under a configuration whose upstream origin has a scheme
and an authority (the shape the spec fixes for Configuration), every
inbound request produces exactly one response, and that response is the
dispatcher response (passthrough), the fixed locally-built 401 (either
body), or the fixed locally-built 502; a rejected request is never
dispatched upstream, and no request is dispatched more than once. -/
theorem c3_theorem (dispatch : OutboundRequest → DispatchResult) (req : Request)
    (tok : String) (base : UriParts) (s a : String)
    (hs : base.scheme = some s) (ha : base.authority = some a) :
    ∃ resp : Response,
      (handle dispatch req tok base).1 = HandleResult.response resp ∧
      (handle dispatch req tok base).2.length ≤ 1 ∧
      ((∃ r, authorize req tok = Except.error r) → (handle dispatch req tok base).2 = []) ∧
      (resp = missingAuthResponse ∨ resp = invalidTokenResponse ∨
        resp = badGatewayResponse ∨
        ∃ out, (handle dispatch req tok base).2 = [out] ∧
          dispatch out = DispatchResult.ok resp) := by
  rcases authorize_cases req tok with hok | herr | herr
  · have hrun := handle_authorized dispatch req tok base s a hok hs ha
    have hnone : (∃ r, authorize req tok = Except.error r) →
        (handle dispatch req tok base).2 = [] := by
      rintro ⟨r, hr⟩
      rw [hok] at hr
      exact Except.noConfusion hr
    cases hd : dispatch (builtOutbound req s a) with
    | ok resp =>
      simp only [hd] at hrun
      exact ⟨resp, by rw [hrun], by rw [hrun]; simp, hnone,
        Or.inr (Or.inr (Or.inr ⟨builtOutbound req s a, by rw [hrun], hd⟩))⟩
    | transportError e =>
      simp only [hd] at hrun
      exact ⟨badGatewayResponse, by rw [hrun], by rw [hrun]; simp, hnone,
        Or.inr (Or.inr (Or.inl rfl))⟩
  · have hrun := handle_rejected dispatch req tok base missingAuthResponse herr
    exact ⟨missingAuthResponse, by rw [hrun], by rw [hrun]; simp,
      fun _ => by rw [hrun], Or.inl rfl⟩
  · have hrun := handle_rejected dispatch req tok base invalidTokenResponse herr
    exact ⟨invalidTokenResponse, by rw [hrun], by rw [hrun]; simp,
      fun _ => by rw [hrun], Or.inr (Or.inl rfl)⟩

/-- Witness for c3_theorem at a concrete authorized request and upstream. -/
theorem c3_witness :
    ∃ resp : Response,
      (handle (fun _ => DispatchResult.ok upstreamResp) reqGoodAuth "secret" goodBase).1
        = HandleResult.response resp ∧
      (handle (fun _ => DispatchResult.ok upstreamResp) reqGoodAuth "secret" goodBase).2.length ≤ 1 ∧
      ((∃ r, authorize reqGoodAuth "secret" = Except.error r) →
        (handle (fun _ => DispatchResult.ok upstreamResp) reqGoodAuth "secret" goodBase).2 = []) ∧
      (resp = missingAuthResponse ∨ resp = invalidTokenResponse ∨
        resp = badGatewayResponse ∨
        ∃ out, (handle (fun _ => DispatchResult.ok upstreamResp) reqGoodAuth "secret" goodBase).2
            = [out] ∧
          (fun _ => DispatchResult.ok upstreamResp) out = DispatchResult.ok resp) :=
  c3_theorem (fun _ => DispatchResult.ok upstreamResp) reqGoodAuth "secret" goodBase
    "http" "localhost:9001" rfl rfl

/-- Claim C5: for every authorized request under a scheme+authority
upstream origin, exactly one outbound request is dispatched, and its URI
carries the inbound path-and-query string verbatim (the very same string,
hence also empty queries and percent-encoded characters), with "/"
substituted when the inbound URI has no path component. -/
theorem c5_theorem (dispatch : OutboundRequest → DispatchResult) (req : Request)
    (tok : String) (base : UriParts) (s a : String)
    (hok : authorize req tok = Except.ok req)
    (hs : base.scheme = some s) (ha : base.authority = some a) :
    ∃ out : OutboundRequest,
      (handle dispatch req tok base).2 = [out] ∧
      out.uri.pathAndQuery = some (req.pathAndQuery.getD "/") := by
  have hrun := handle_authorized dispatch req tok base s a hok hs ha
  cases hd : dispatch (builtOutbound req s a) with
  | ok resp =>
    simp only [hd] at hrun
    exact ⟨builtOutbound req s a, by rw [hrun], rfl⟩
  | transportError e =>
    simp only [hd] at hrun
    exact ⟨builtOutbound req s a, by rw [hrun], rfl⟩

/-- Witness for c5_theorem: a request with path and query "/status?x=1"
is forwarded with exactly that string, and a request with no path
component is forwarded with "/". -/
theorem c5_witness :
    (∃ out : OutboundRequest,
      (handle (fun _ => DispatchResult.ok upstreamResp) reqGoodAuth "secret" goodBase).2
        = [out] ∧
      out.uri.pathAndQuery = some "/status?x=1") ∧
    (∃ out : OutboundRequest,
      (handle (fun _ => DispatchResult.ok upstreamResp) reqNoPathAuth "secret" goodBase).2
        = [out] ∧
      out.uri.pathAndQuery = some "/") :=
  ⟨c5_theorem (fun _ => DispatchResult.ok upstreamResp) reqGoodAuth "secret" goodBase
      "http" "localhost:9001" rfl rfl rfl,
   c5_theorem (fun _ => DispatchResult.ok upstreamResp) reqNoPathAuth "secret" goodBase
      "http" "localhost:9001" rfl rfl rfl⟩

/-- Claim C6: for every authorized request under a scheme+authority
upstream origin, the single dispatched outbound request carries the
upstream authority as its only host header value (any inbound host value
is discarded, whatever it was), every header name other than host keeps
exactly its inbound value sequence, and the method and body pass through
unchanged. -/
theorem c6_theorem (dispatch : OutboundRequest → DispatchResult) (req : Request)
    (tok : String) (base : UriParts) (s a : String)
    (hok : authorize req tok = Except.ok req)
    (hs : base.scheme = some s) (ha : base.authority = some a) :
    ∃ out : OutboundRequest,
      (handle dispatch req tok base).2 = [out] ∧
      headersGetAll out.headers "host" = [utf8Bytes a] ∧
      (∀ n, n ≠ "host" → headersGetAll out.headers n = headersGetAll req.headers n) ∧
      out.method = req.method ∧
      out.body = req.body := by
  have hrun := handle_authorized dispatch req tok base s a hok hs ha
  cases hd : dispatch (builtOutbound req s a) with
  | ok resp =>
    simp only [hd] at hrun
    exact ⟨builtOutbound req s a, by rw [hrun],
      headersGetAll_headerInsert_self req.headers "host" (utf8Bytes a),
      fun n hn => headersGetAll_headerInsert_ne req.headers "host" n (utf8Bytes a) hn,
      rfl, rfl⟩
  | transportError e =>
    simp only [hd] at hrun
    exact ⟨builtOutbound req s a, by rw [hrun],
      headersGetAll_headerInsert_self req.headers "host" (utf8Bytes a),
      fun n hn => headersGetAll_headerInsert_ne req.headers "host" n (utf8Bytes a) hn,
      rfl, rfl⟩

/-- Witness for c6_theorem: the inbound host value example.com is
replaced by the upstream authority localhost:9001. -/
theorem c6_witness :
    ∃ out : OutboundRequest,
      (handle (fun _ => DispatchResult.ok upstreamResp) reqGoodAuth "secret" goodBase).2
        = [out] ∧
      headersGetAll out.headers "host" = [utf8Bytes "localhost:9001"] ∧
      (∀ n, n ≠ "host" →
        headersGetAll out.headers n = headersGetAll reqGoodAuth.headers n) ∧
      out.method = reqGoodAuth.method ∧
      out.body = reqGoodAuth.body :=
  c6_theorem (fun _ => DispatchResult.ok upstreamResp) reqGoodAuth "secret" goodBase
    "http" "localhost:9001" rfl rfl rfl

/-- Claim C7: for every authorized request under a scheme+authority
upstream origin whose dispatch ends in a transport error, whatever error
text the transport produces, the client receives exactly the fixed
response with status 502 and body "Bad Gateway"; since that response is a
closed constant, no part of the transport error text reaches it. -/
theorem c7_theorem (errText : OutboundRequest → String) (req : Request)
    (tok : String) (base : UriParts) (s a : String)
    (hok : authorize req tok = Except.ok req)
    (hs : base.scheme = some s) (ha : base.authority = some a) :
    (handle (fun out => DispatchResult.transportError (errText out)) req tok base).1
      = HandleResult.response badGatewayResponse ∧
    badGatewayResponse.status = 502 ∧
    badGatewayResponse.body = utf8Bytes "Bad Gateway" := by
  have hrun := handle_authorized (fun out => DispatchResult.transportError (errText out))
    req tok base s a hok hs ha
  exact ⟨by rw [hrun], rfl, rfl⟩

/-- Witness for c7_theorem at a concrete transport error text. -/
theorem c7_witness :
    (handle (fun _ => DispatchResult.transportError "dns failure")
        reqGoodAuth "secret" goodBase).1 = HandleResult.response badGatewayResponse ∧
    badGatewayResponse.status = 502 ∧
    badGatewayResponse.body = utf8Bytes "Bad Gateway" :=
  c7_theorem (fun _ => "dns failure") reqGoodAuth "secret" goodBase
    "http" "localhost:9001" rfl rfl rfl

/-- Claim C8: for every authorized request under a scheme+authority
upstream origin, when the dispatcher returns an upstream response (its
status, headers and body), the client receives exactly that response
value, unchanged: no header rewriting, no body change on the return
path. -/
theorem c8_theorem (dispatch : OutboundRequest → DispatchResult) (req : Request)
    (tok : String) (base : UriParts) (s a : String) (resp : Response)
    (hok : authorize req tok = Except.ok req)
    (hs : base.scheme = some s) (ha : base.authority = some a)
    (hdisp : ∀ out, dispatch out = DispatchResult.ok resp) :
    (handle dispatch req tok base).1 = HandleResult.response resp := by
  have hrun := handle_authorized dispatch req tok base s a hok hs ha
  rw [hdisp (builtOutbound req s a)] at hrun
  rw [hrun]

/-- Witness for c8_theorem: a 200 upstream response with its headers and
body reaches the client verbatim. -/
theorem c8_witness :
    (handle (fun _ => DispatchResult.ok upstreamResp) reqGoodAuth "secret" goodBase).1
      = HandleResult.response upstreamResp :=
  c8_theorem (fun _ => DispatchResult.ok upstreamResp) reqGoodAuth "secret" goodBase
    "http" "localhost:9001" upstreamResp rfl rfl rfl (fun _ => rfl)
